import Mathlib

/-!
Shallow embedding of `src/validation.js` (Student Portal Signup System form
validation), together with proofs of the specified properties.

The DOM state touched by the script is modelled explicitly:
each of the five fields (fullName, email, password, confirmPassword, phone)
owns an input element (its string `value`, and the presence of the CSS
classes "error-input" and "success-input"), a container ("form group")
element carrying the CSS class "error", and an error-message element (its
`textContent` and the presence of the CSS class "show").  The success banner
is one more "show" flag.  Every function of the script is translated as a
pure state transformer; validators return their boolean verdict paired with
the updated state.

The specification additionally speaks of each field carrying a "validity
verdict (boolean, initially unset)" that is "recomputed on every blur,
qualifying input event, or submit attempt" and "wiped ... on reset".  That
verdict is not stored anywhere by the JavaScript; it is carried here as a
ghost component `verdict : Option Bool`, written exactly at those points and
never read by any translated code.
-/

namespace SignupValidation

/-- JavaScript whitespace: the characters matched by the regex class `\s`
(and removed by `String.prototype.trim`): TAB..CR, space, NBSP, and the
Unicode space separators, line separators and BOM. -/
def isJsSpace (c : Char) : Bool :=
  let n := c.toNat
  (9 ≤ n && n ≤ 13) || n = 32 || n = 160 || n = 0x1680 ||
    (0x2000 ≤ n && n ≤ 0x200a) || n = 0x2028 || n = 0x2029 ||
    n = 0x202f || n = 0x205f || n = 0x3000 || n = 0xfeff

/-- JavaScript `String.prototype.trim`: remove leading and trailing
JavaScript whitespace. -/
def jsTrim (s : String) : String :=
  String.mk (((s.data.dropWhile isJsSpace).reverse.dropWhile isJsSpace).reverse)

/-- The JavaScript regex test `/^\d+$/.test s`: `\d` is exactly `[0-9]`, so
the string must be non-empty and consist of decimal digits only. -/
def digitsOnly (s : String) : Bool :=
  !s.isEmpty && s.data.all Char.isDigit

/-- One character of the regex class `[^\s@]`: neither JavaScript whitespace
nor the at sign. -/
def emailChar (c : Char) : Bool :=
  !isJsSpace c && c != '@'

/-- Split a character list at its first `'@'`: `some (before, after)` when
one occurs, `none` otherwise. -/
def splitAtFirstAt : List Char → Option (List Char × List Char)
  | [] => none
  | c :: cs =>
    if c = '@' then some ([], cs)
    else
      match splitAtFirstAt cs with
      | some (before, after) => some (c :: before, after)
      | none => none

/-- Whether `'.'` occurs at a position other than the last one. -/
def dotBeforeLast : List Char → Bool
  | [] => false
  | [_] => false
  | c :: cs => c == '.' || dotBeforeLast cs

/-- The JavaScript regex test `/^[^\s@]+@[^\s@]+\.[^\s@]+$/.test s`,
determinised.  The class `[^\s@]` excludes `'@'`, so a match must split `s`
at its first (and only) `'@'` into a non-empty local part and a domain part,
both drawn from `[^\s@]`; the domain must further split as
`[^\s@]+ '.' [^\s@]+`, and since `'.'` itself lies in the class `[^\s@]`,
that holds exactly when some `'.'` occurs in the domain at a position that
is neither first nor last. -/
def emailRegexTest (s : String) : Bool :=
  match splitAtFirstAt s.data with
  | none => false
  | some (localPart, domainPart) =>
    !localPart.isEmpty && localPart.all emailChar && domainPart.all emailChar &&
      (match domainPart with
       | [] => false
       | _ :: rest => dotBeforeLast rest)

/-- The DOM state owned by one field: the value of its input element, the
presence of the classes "error-input" and "success-input" on that input, the
presence of the class "error" on its parent form group, the text content and
"show" class of its error-message element, and the ghost validity verdict of
the specification (initially unset). -/
structure FieldState where
  value : String
  errorInput : Bool
  successInput : Bool
  groupError : Bool
  errorText : String
  errorShow : Bool
  verdict : Option Bool
deriving Repr, DecidableEq

/-- The whole DOM state the script touches: the five fields and the "show"
class of the success banner. -/
structure FormState where
  fullName : FieldState
  email : FieldState
  password : FieldState
  confirmPassword : FieldState
  phone : FieldState
  successShow : Bool
deriving Repr, DecidableEq

/-- `showError(input, errorElement, message)`: add "error-input" and remove
"success-input" on the input, set the error text to `message` and add "show"
on the error element.  Both elements belong to the same field at every call
site, so it is a transformer of one `FieldState`. -/
def showError (f : FieldState) (message : String) : FieldState :=
  { f with errorInput := true, successInput := false,
           errorText := message, errorShow := true }

/-- `clearError(input, errorElement)`: remove "error-input" and add
"success-input" on the input, clear the error text and remove "show". -/
def clearError (f : FieldState) : FieldState :=
  { f with errorInput := false, successInput := true,
           errorText := "", errorShow := false }

/-- `validateFullName()`: on the trimmed value, require non-empty, then
length at least 3 (JavaScript string length; the inputs considered here are
within the BMP, where it agrees with the character count). -/
def validateFullName (st : FormState) : Bool × FormState :=
  let fullName := jsTrim st.fullName.value
  if fullName = "" then
    (false, { st with fullName :=
      { showError st.fullName "Full name is required" with groupError := true } })
  else if fullName.length < 3 then
    (false, { st with fullName :=
      { showError st.fullName "Full name must be at least 3 characters" with groupError := true } })
  else
    (true, { st with fullName := { clearError st.fullName with groupError := false } })

/-- `validateEmail()`: on the trimmed value, require non-empty, then a `'@'`
(`String.prototype.includes`, here membership of the character list), then a
`'.'`, then the full regex. -/
def validateEmail (st : FormState) : Bool × FormState :=
  let email := jsTrim st.email.value
  if email = "" then
    (false, { st with email :=
      { showError st.email "Email is required" with groupError := true } })
  else if !email.data.contains '@' then
    (false, { st with email :=
      { showError st.email "Email must contain @ symbol" with groupError := true } })
  else if !email.data.contains '.' then
    (false, { st with email :=
      { showError st.email "Email must contain a domain (.)" with groupError := true } })
  else if !emailRegexTest email then
    (false, { st with email :=
      { showError st.email "Please enter a valid email format" with groupError := true } })
  else
    (true, { st with email := { clearError st.email with groupError := false } })

/-- `validatePassword()`: on the raw (untrimmed) value, require non-empty,
then length at least 6. -/
def validatePassword (st : FormState) : Bool × FormState :=
  let password := st.password.value
  if password = "" then
    (false, { st with password :=
      { showError st.password "Password is required" with groupError := true } })
  else if password.length < 6 then
    (false, { st with password :=
      { showError st.password "Password must be at least 6 characters" with groupError := true } })
  else
    (true, { st with password := { clearError st.password with groupError := false } })

/-- `validateConfirmPassword()`: on the raw values, require the confirmation
non-empty, then strictly equal (`!==`) to the current password value. -/
def validateConfirmPassword (st : FormState) : Bool × FormState :=
  let password := st.password.value
  let confirmPassword := st.confirmPassword.value
  if confirmPassword = "" then
    (false, { st with confirmPassword :=
      { showError st.confirmPassword "Please confirm your password" with groupError := true } })
  else if password ≠ confirmPassword then
    (false, { st with confirmPassword :=
      { showError st.confirmPassword "Passwords do not match" with groupError := true } })
  else
    (true, { st with confirmPassword :=
      { clearError st.confirmPassword with groupError := false } })

/-- `validatePhone()`: on the trimmed value, require non-empty, then the
digits-only regex `/^\d+$/`, then length at least 10. -/
def validatePhone (st : FormState) : Bool × FormState :=
  let phone := jsTrim st.phone.value
  if phone = "" then
    (false, { st with phone :=
      { showError st.phone "Phone number is required" with groupError := true } })
  else if !digitsOnly phone then
    (false, { st with phone :=
      { showError st.phone "Phone number must contain only digits (0-9)" with groupError := true } })
  else if phone.length < 10 then
    (false, { st with phone :=
      { showError st.phone "Phone number must be at least 10 digits" with groupError := true } })
  else
    (true, { st with phone := { clearError st.phone with groupError := false } })

/-- `validateForm()`: run all five field validators unconditionally, in
source order, and return the conjunction of their verdicts. -/
def validateForm (st : FormState) : Bool × FormState :=
  let r1 := validateFullName st
  let r2 := validateEmail r1.2
  let r3 := validatePassword r2.2
  let r4 := validateConfirmPassword r3.2
  let r5 := validatePhone r4.2
  (r1.1 && r2.1 && r3.1 && r4.1 && r5.1, r5.2)

/-- The effect of `resetForm()` on one field: `signupForm.reset()` restores
the input value (modelled from the spec: `signup.html` is not part of the
sources; the spec states that reset "clears all input values", i.e. the HTML
default values are empty), both input classes and the group "error" class
are removed, the error text is cleared and its "show" class removed.  The
ghost verdict returns to unset, as the spec returns every field to
Untouched. -/
def resetField (fs : FieldState) : FieldState :=
  { fs with value := "", errorInput := false, successInput := false,
            groupError := false, errorText := "", errorShow := false,
            verdict := none }

/-- `resetForm()`: reset every field and hide the success banner. -/
def resetForm (st : FormState) : FormState :=
  { fullName := resetField st.fullName
    email := resetField st.email
    password := resetField st.password
    confirmPassword := resetField st.confirmPassword
    phone := resetField st.phone
    successShow := false }

/-- The synchronous part of `showSuccessMessage()`: add "show" on the
success banner (the delayed auto-hide is a separate scheduled event,
modelled as an operation below). -/
def showSuccessMessage (st : FormState) : FormState :=
  { st with successShow := true }

/-- Names for the five fields of the form. -/
inductive FieldId where
  | fullName
  | email
  | password
  | confirmPassword
  | phone
deriving Repr, DecidableEq

/-- Projection of the state of one named field. -/
def getField (st : FormState) : FieldId → FieldState
  | .fullName => st.fullName
  | .email => st.email
  | .password => st.password
  | .confirmPassword => st.confirmPassword
  | .phone => st.phone

/-- Replacement of the state of one named field. -/
def setField (st : FormState) (f : FieldId) (fs : FieldState) : FormState :=
  match f with
  | .fullName => { st with fullName := fs }
  | .email => { st with email := fs }
  | .password => { st with password := fs }
  | .confirmPassword => { st with confirmPassword := fs }
  | .phone => { st with phone := fs }

/-- The validator bound to each field. -/
def runValidator : FieldId → FormState → Bool × FormState
  | .fullName => validateFullName
  | .email => validateEmail
  | .password => validatePassword
  | .confirmPassword => validateConfirmPassword
  | .phone => validatePhone

/-- Set the value of one input element (a user edit of the text, with no
handler attached to the edit itself). -/
def setValue (st : FormState) (f : FieldId) (v : String) : FormState :=
  setField st f { getField st f with value := v }

/-- Record the ghost verdict of one field. -/
def recordVerdict (st : FormState) (f : FieldId) (b : Bool) : FormState :=
  setField st f { getField st f with verdict := some b }

/-- Run the validator of field `f` and record its verdict: the body of every
blur handler, and of the confirm-password input handler once its guard
holds. -/
def validateStep (st : FormState) (f : FieldId) : FormState :=
  let r := runValidator f st
  recordVerdict r.2 f r.1

/-- Record the five ghost verdicts computed by one `validateForm()` run. -/
def recordVerdicts (st : FormState) (b1 b2 b3 b4 b5 : Bool) : FormState :=
  recordVerdict (recordVerdict (recordVerdict (recordVerdict (recordVerdict
    st .fullName b1) .email b2) .password b3) .confirmPassword b4) .phone b5

/-- The submit handler: `event.preventDefault()` (nothing to model), then
`validateForm()`; on success, `showSuccessMessage()` (console logging has no
modelled effect; the two `setTimeout` callbacks are modelled as the separate
operations `resetTimer` and `hideTimer` below, since the event loop runs
them later as ordinary events).  The five verdicts of the run are recorded
as ghost state. -/
def submitStep (st : FormState) : FormState :=
  let r1 := validateFullName st
  let r2 := validateEmail r1.2
  let r3 := validatePassword r2.2
  let r4 := validateConfirmPassword r3.2
  let r5 := validatePhone r4.2
  let s := recordVerdicts r5.2 r1.1 r2.1 r3.1 r4.1 r5.1
  if r1.1 && r2.1 && r3.1 && r4.1 && r5.1 then showSuccessMessage s else s

/-- The operations of the system: a user edit of an input value, the five
blur handlers, the two input handlers (each fires after the edit that
triggered it, so it carries the new value), the submit handler, and the two
timer callbacks scheduled by a successful submit (the 2000 ms `resetForm`
and the 5000 ms auto-hide of the success banner). -/
inductive Op where
  | edit (f : FieldId) (v : String)
  | blur (f : FieldId)
  | inputConfirmPassword (v : String)
  | inputPassword (v : String)
  | submit
  | resetTimer
  | hideTimer
deriving Repr, DecidableEq

/-- One step of the event loop: the effect of each operation on the DOM
state, translated from the event listeners of the script.  The
confirm-password input handler re-runs its validator only when the value is
truthy (non-empty); the password input handler calls `clearError` directly
when the length reaches 6. -/
def step (st : FormState) : Op → FormState
  | .edit f v => setValue st f v
  | .blur f => validateStep st f
  | .inputConfirmPassword v =>
    let st1 := setValue st .confirmPassword v
    if v = "" then st1 else validateStep st1 .confirmPassword
  | .inputPassword v =>
    let st1 := setValue st .password v
    if 6 ≤ v.length then
      setField st1 .password (clearError (getField st1 .password))
    else st1
  | .submit => submitStep st
  | .resetTimer => resetForm st
  | .hideTimer => { st with successShow := false }

/-- One field at page load: empty value, no classes, empty error text,
verdict unset. -/
def initField : FieldState :=
  { value := "", errorInput := false, successInput := false,
    groupError := false, errorText := "", errorShow := false, verdict := none }

/-- The state at page load. -/
def initState : FormState :=
  { fullName := initField, email := initField, password := initField,
    confirmPassword := initField, phone := initField, successShow := false }

/-- The states the system can be in: the page-load state and everything the
operations reach from it. -/
inductive Reachable : FormState → Prop where
  | init : Reachable initState
  | next {st : FormState} (h : Reachable st) (op : Op) : Reachable (step st op)

/-- The trace refuting the verdict leg of claim C3: type "abc" into the
password field, blur it (the validator fails and records a fail verdict),
then type on until "abcdef" (the input shortcut clears the error without
re-running the validator). -/
def passwordShortcutTrace : FormState :=
  step (step (step initState (Op.inputPassword "abc")) (Op.blur FieldId.password))
    (Op.inputPassword "abcdef")

/-- The state refuting claim C9 as stated: password " ", confirm password
empty: the raw values differ only in trailing whitespace, yet the message
shown is the required-message, not the mismatch message. -/
def whitespaceMismatchState : FormState :=
  setValue initState FieldId.password " "

/-! Helper lemmas: field access, the common shape of a validator run, and
the state invariants. -/

lemma getField_setField_same (st : FormState) (f : FieldId) (fs : FieldState) :
    getField (setField st f fs) f = fs := by
  cases f <;> rfl

lemma getField_setField_of_ne (st : FormState) (f : FieldId) (fs : FieldState)
    (g : FieldId) (h : g ≠ f) : getField (setField st f fs) g = getField st g := by
  cases f <;> cases g <;> first | exact absurd rfl h | rfl

lemma getField_update_successShow (st : FormState) (b : Bool) (g : FieldId) :
    getField { st with successShow := b } g = getField st g := by
  cases g <;> rfl

lemma setField_successShow (st : FormState) (f : FieldId) (fs : FieldState) :
    (setField st f fs).successShow = st.successShow := by
  cases f <;> rfl

lemma validateStep_self (st : FormState) (f : FieldId) :
    getField (validateStep st f) f =
      { getField (runValidator f st).2 f with
        verdict := some (runValidator f st).1 } :=
  getField_setField_same _ _ _

/-- What every branch of every validator leaves on its own field: the input
classes, group class and error slot all reflect the verdict, and the value
and ghost verdict of the field are untouched. -/
def ValidatorPost (old new : FieldState) (b : Bool) : Prop :=
  new.errorInput = !b ∧ new.successInput = b ∧ new.groupError = !b ∧
    new.errorShow = !b ∧ (new.errorText ≠ "" ↔ b = false) ∧
    new.value = old.value ∧ new.verdict = old.verdict

lemma validateFullName_frame (st : FormState) (g : FieldId) (h : g ≠ FieldId.fullName) :
    getField (validateFullName st).2 g = getField st g := by
  unfold validateFullName; dsimp only
  repeat' split
  all_goals cases g <;> first | exact absurd rfl h | rfl

lemma validateEmail_frame (st : FormState) (g : FieldId) (h : g ≠ FieldId.email) :
    getField (validateEmail st).2 g = getField st g := by
  unfold validateEmail; dsimp only
  repeat' split
  all_goals cases g <;> first | exact absurd rfl h | rfl

lemma validatePassword_frame (st : FormState) (g : FieldId) (h : g ≠ FieldId.password) :
    getField (validatePassword st).2 g = getField st g := by
  unfold validatePassword; dsimp only
  repeat' split
  all_goals cases g <;> first | exact absurd rfl h | rfl

lemma validateConfirmPassword_frame (st : FormState) (g : FieldId)
    (h : g ≠ FieldId.confirmPassword) :
    getField (validateConfirmPassword st).2 g = getField st g := by
  unfold validateConfirmPassword; dsimp only
  repeat' split
  all_goals cases g <;> first | exact absurd rfl h | rfl

lemma validatePhone_frame (st : FormState) (g : FieldId) (h : g ≠ FieldId.phone) :
    getField (validatePhone st).2 g = getField st g := by
  unfold validatePhone; dsimp only
  repeat' split
  all_goals cases g <;> first | exact absurd rfl h | rfl

lemma runValidator_frame (f g : FieldId) (st : FormState) (h : g ≠ f) :
    getField (runValidator f st).2 g = getField st g := by
  cases f with
  | fullName => exact validateFullName_frame st g h
  | email => exact validateEmail_frame st g h
  | password => exact validatePassword_frame st g h
  | confirmPassword => exact validateConfirmPassword_frame st g h
  | phone => exact validatePhone_frame st g h

lemma validateFullName_post (st : FormState) :
    ValidatorPost st.fullName (getField (validateFullName st).2 .fullName)
      (validateFullName st).1 := by
  unfold validateFullName; dsimp only
  repeat' split
  all_goals simp [ValidatorPost, getField, showError, clearError]

lemma validateEmail_post (st : FormState) :
    ValidatorPost st.email (getField (validateEmail st).2 .email)
      (validateEmail st).1 := by
  unfold validateEmail; dsimp only
  repeat' split
  all_goals simp [ValidatorPost, getField, showError, clearError]

lemma validatePassword_post (st : FormState) :
    ValidatorPost st.password (getField (validatePassword st).2 .password)
      (validatePassword st).1 := by
  unfold validatePassword; dsimp only
  repeat' split
  all_goals simp [ValidatorPost, getField, showError, clearError]

lemma validateConfirmPassword_post (st : FormState) :
    ValidatorPost st.confirmPassword
      (getField (validateConfirmPassword st).2 .confirmPassword)
      (validateConfirmPassword st).1 := by
  unfold validateConfirmPassword; dsimp only
  repeat' split
  all_goals simp [ValidatorPost, getField, showError, clearError]

lemma validatePhone_post (st : FormState) :
    ValidatorPost st.phone (getField (validatePhone st).2 .phone)
      (validatePhone st).1 := by
  unfold validatePhone; dsimp only
  repeat' split
  all_goals simp [ValidatorPost, getField, showError, clearError]

lemma runValidator_post (f : FieldId) (st : FormState) :
    ValidatorPost (getField st f) (getField (runValidator f st).2 f)
      (runValidator f st).1 := by
  cases f with
  | fullName => exact validateFullName_post st
  | email => exact validateEmail_post st
  | password => exact validatePassword_post st
  | confirmPassword => exact validateConfirmPassword_post st
  | phone => exact validatePhone_post st

lemma validateFullName_successShow (st : FormState) :
    (validateFullName st).2.successShow = st.successShow := by
  unfold validateFullName; dsimp only
  repeat' split
  all_goals rfl

lemma validateEmail_successShow (st : FormState) :
    (validateEmail st).2.successShow = st.successShow := by
  unfold validateEmail; dsimp only
  repeat' split
  all_goals rfl

lemma validatePassword_successShow (st : FormState) :
    (validatePassword st).2.successShow = st.successShow := by
  unfold validatePassword; dsimp only
  repeat' split
  all_goals rfl

lemma validateConfirmPassword_successShow (st : FormState) :
    (validateConfirmPassword st).2.successShow = st.successShow := by
  unfold validateConfirmPassword; dsimp only
  repeat' split
  all_goals rfl

lemma validatePhone_successShow (st : FormState) :
    (validatePhone st).2.successShow = st.successShow := by
  unfold validatePhone; dsimp only
  repeat' split
  all_goals rfl

lemma runValidator_successShow (f : FieldId) (st : FormState) :
    (runValidator f st).2.successShow = st.successShow := by
  cases f with
  | fullName => exact validateFullName_successShow st
  | email => exact validateEmail_successShow st
  | password => exact validatePassword_successShow st
  | confirmPassword => exact validateConfirmPassword_successShow st
  | phone => exact validatePhone_successShow st

/-- The per-field invariant of the specification: the error slot is
populated exactly when the "error-input" class is present, and the two
input classes are never both present. -/
def FieldInv (fs : FieldState) : Prop :=
  (fs.errorText ≠ "" ↔ fs.errorInput = true) ∧
    ¬(fs.errorInput = true ∧ fs.successInput = true)

/-- The invariant over the whole form. -/
def StateInv (st : FormState) : Prop := ∀ f, FieldInv (getField st f)

lemma fieldInv_of_post (old new : FieldState) (b : Bool)
    (h : ValidatorPost old new b) : FieldInv new := by
  obtain ⟨h1, h2, _, _, h5, _, _⟩ := h
  refine ⟨?_, ?_⟩
  · rw [h5, h1]; cases b <;> simp
  · rw [h1, h2]; cases b <;> simp

lemma fieldInv_clearError (fs : FieldState) : FieldInv (clearError fs) := by
  simp [FieldInv, clearError]

lemma fieldInv_value_update (fs : FieldState) (v : String) (h : FieldInv fs) :
    FieldInv { fs with value := v } := h

lemma fieldInv_verdict_update (fs : FieldState) (b : Option Bool) (h : FieldInv fs) :
    FieldInv { fs with verdict := b } := h

lemma stateInv_setField (st : FormState) (f : FieldId) (fs : FieldState)
    (h : StateInv st) (hf : FieldInv fs) : StateInv (setField st f fs) := by
  intro g
  by_cases hg : g = f
  · subst hg; rw [getField_setField_same]; exact hf
  · rw [getField_setField_of_ne st f fs g hg]; exact h g

lemma stateInv_successShow (st : FormState) (b : Bool) (h : StateInv st) :
    StateInv { st with successShow := b } := by
  intro g; rw [getField_update_successShow]; exact h g

lemma stateInv_validateFullName (st : FormState) (h : StateInv st) :
    StateInv (validateFullName st).2 := by
  intro g
  by_cases hg : g = FieldId.fullName
  · subst hg; exact fieldInv_of_post _ _ _ (validateFullName_post st)
  · rw [validateFullName_frame st g hg]; exact h g

lemma stateInv_validateEmail (st : FormState) (h : StateInv st) :
    StateInv (validateEmail st).2 := by
  intro g
  by_cases hg : g = FieldId.email
  · subst hg; exact fieldInv_of_post _ _ _ (validateEmail_post st)
  · rw [validateEmail_frame st g hg]; exact h g

lemma stateInv_validatePassword (st : FormState) (h : StateInv st) :
    StateInv (validatePassword st).2 := by
  intro g
  by_cases hg : g = FieldId.password
  · subst hg; exact fieldInv_of_post _ _ _ (validatePassword_post st)
  · rw [validatePassword_frame st g hg]; exact h g

lemma stateInv_validateConfirmPassword (st : FormState) (h : StateInv st) :
    StateInv (validateConfirmPassword st).2 := by
  intro g
  by_cases hg : g = FieldId.confirmPassword
  · subst hg; exact fieldInv_of_post _ _ _ (validateConfirmPassword_post st)
  · rw [validateConfirmPassword_frame st g hg]; exact h g

lemma stateInv_validatePhone (st : FormState) (h : StateInv st) :
    StateInv (validatePhone st).2 := by
  intro g
  by_cases hg : g = FieldId.phone
  · subst hg; exact fieldInv_of_post _ _ _ (validatePhone_post st)
  · rw [validatePhone_frame st g hg]; exact h g

lemma stateInv_runValidator (f : FieldId) (st : FormState) (h : StateInv st) :
    StateInv (runValidator f st).2 := by
  intro g
  by_cases hg : g = f
  · subst hg; exact fieldInv_of_post _ _ _ (runValidator_post g st)
  · rw [runValidator_frame f g st hg]; exact h g

lemma stateInv_recordVerdict (st : FormState) (f : FieldId) (b : Bool)
    (h : StateInv st) : StateInv (recordVerdict st f b) :=
  stateInv_setField st f _ h (fieldInv_verdict_update _ _ (h f))

lemma stateInv_validateStep (st : FormState) (f : FieldId) (h : StateInv st) :
    StateInv (validateStep st f) :=
  stateInv_recordVerdict _ f _ (stateInv_runValidator f st h)

lemma stateInv_setValue (st : FormState) (f : FieldId) (v : String)
    (h : StateInv st) : StateInv (setValue st f v) :=
  stateInv_setField st f _ h (fieldInv_value_update _ _ (h f))

lemma stateInv_resetForm (st : FormState) : StateInv (resetForm st) := by
  intro g; cases g <;> simp [resetForm, resetField, getField, FieldInv]

lemma stateInv_init : StateInv initState := by
  intro g; cases g <;> simp [initState, initField, getField, FieldInv]

lemma stateInv_submitStep (st : FormState) (h : StateInv st) :
    StateInv (submitStep st) := by
  have h1 : StateInv (validateFullName st).2 := stateInv_validateFullName st h
  have h2 : StateInv (validateEmail (validateFullName st).2).2 :=
    stateInv_validateEmail _ h1
  have h3 : StateInv (validatePassword (validateEmail (validateFullName st).2).2).2 :=
    stateInv_validatePassword _ h2
  have h4 : StateInv (validateConfirmPassword
      (validatePassword (validateEmail (validateFullName st).2).2).2).2 :=
    stateInv_validateConfirmPassword _ h3
  have h5 : StateInv (validatePhone (validateConfirmPassword
      (validatePassword (validateEmail (validateFullName st).2).2).2).2).2 :=
    stateInv_validatePhone _ h4
  have h6 : StateInv (recordVerdicts (validatePhone (validateConfirmPassword
      (validatePassword (validateEmail (validateFullName st).2).2).2).2).2
      (validateFullName st).1 (validateEmail (validateFullName st).2).1
      (validatePassword (validateEmail (validateFullName st).2).2).1
      (validateConfirmPassword
        (validatePassword (validateEmail (validateFullName st).2).2).2).1
      (validatePhone (validateConfirmPassword
        (validatePassword (validateEmail (validateFullName st).2).2).2).2).1) := by
    unfold recordVerdicts
    exact stateInv_recordVerdict _ _ _ (stateInv_recordVerdict _ _ _
      (stateInv_recordVerdict _ _ _ (stateInv_recordVerdict _ _ _
        (stateInv_recordVerdict _ _ _ h5))))
  unfold submitStep; dsimp only
  split
  · exact stateInv_successShow _ _ h6
  · exact h6

lemma stateInv_step (st : FormState) (op : Op) (h : StateInv st) :
    StateInv (step st op) := by
  cases op with
  | edit f v => exact stateInv_setValue st f v h
  | blur f => exact stateInv_validateStep st f h
  | inputConfirmPassword v =>
    unfold step; dsimp only
    split
    · exact stateInv_setValue st _ v h
    · exact stateInv_validateStep _ _ (stateInv_setValue st _ v h)
  | inputPassword v =>
    unfold step; dsimp only
    split
    · exact stateInv_setField _ _ _ (stateInv_setValue st _ v h)
        (fieldInv_clearError _)
    · exact stateInv_setValue st _ v h
  | submit => exact stateInv_submitStep st h
  | resetTimer => exact stateInv_resetForm st
  | hideTimer => exact stateInv_successShow st false h

lemma stateInv_reachable (st : FormState) (h : Reachable st) : StateInv st := by
  induction h with
  | init => exact stateInv_init
  | next _ op ih => exact stateInv_step _ op ih

/-! One equation per source branch of each validator: the first rule that
fails determines the verdict, the message and the whole resulting state.
The value of the field is abstracted as `v` so that concrete inputs can be
discharged by evaluation. -/

lemma validateFullName_eq_required (st : FormState) (v : String)
    (hv : st.fullName.value = v)
    (h : jsTrim v = "") :
    validateFullName st = (false, { st with fullName :=
      { showError st.fullName "Full name is required" with groupError := true } }) := by
  simp_all [validateFullName]

lemma validateFullName_eq_tooShort (st : FormState) (v : String)
    (hv : st.fullName.value = v)
    (h1 : jsTrim v ≠ "") (h2 : (jsTrim v).length < 3) :
    validateFullName st = (false, { st with fullName :=
      { showError st.fullName "Full name must be at least 3 characters" with groupError := true } }) := by
  simp_all [validateFullName]

lemma validateFullName_eq_valid (st : FormState) (v : String)
    (hv : st.fullName.value = v)
    (h1 : jsTrim v ≠ "") (h2 : ¬(jsTrim v).length < 3) :
    validateFullName st = (true, { st with fullName :=
      { clearError st.fullName with groupError := false } }) := by
  simp_all [validateFullName]

lemma validateEmail_eq_required (st : FormState) (v : String)
    (hv : st.email.value = v)
    (h : jsTrim v = "") :
    validateEmail st = (false, { st with email :=
      { showError st.email "Email is required" with groupError := true } }) := by
  simp_all [validateEmail]

lemma validateEmail_eq_noAt (st : FormState) (v : String)
    (hv : st.email.value = v)
    (h1 : jsTrim v ≠ "")
    (h2 : (jsTrim v).data.contains '@' = false) :
    validateEmail st = (false, { st with email :=
      { showError st.email "Email must contain @ symbol" with groupError := true } }) := by
  simp_all [validateEmail]

lemma validateEmail_eq_noDot (st : FormState) (v : String)
    (hv : st.email.value = v)
    (h1 : jsTrim v ≠ "")
    (h2 : (jsTrim v).data.contains '@' = true)
    (h3 : (jsTrim v).data.contains '.' = false) :
    validateEmail st = (false, { st with email :=
      { showError st.email "Email must contain a domain (.)" with groupError := true } }) := by
  simp_all [validateEmail]

lemma validateEmail_eq_badFormat (st : FormState) (v : String)
    (hv : st.email.value = v)
    (h1 : jsTrim v ≠ "")
    (h2 : (jsTrim v).data.contains '@' = true)
    (h3 : (jsTrim v).data.contains '.' = true)
    (h4 : emailRegexTest (jsTrim v) = false) :
    validateEmail st = (false, { st with email :=
      { showError st.email "Please enter a valid email format" with groupError := true } }) := by
  simp_all [validateEmail]

lemma validateEmail_eq_valid (st : FormState) (v : String)
    (hv : st.email.value = v)
    (h1 : jsTrim v ≠ "")
    (h2 : (jsTrim v).data.contains '@' = true)
    (h3 : (jsTrim v).data.contains '.' = true)
    (h4 : emailRegexTest (jsTrim v) = true) :
    validateEmail st = (true, { st with email :=
      { clearError st.email with groupError := false } }) := by
  simp_all [validateEmail]

lemma validatePassword_eq_required (st : FormState) (v : String)
    (hv : st.password.value = v)
    (h : v = "") :
    validatePassword st = (false, { st with password :=
      { showError st.password "Password is required" with groupError := true } }) := by
  simp_all [validatePassword]

lemma validatePassword_eq_tooShort (st : FormState) (v : String)
    (hv : st.password.value = v)
    (h1 : v ≠ "") (h2 : v.length < 6) :
    validatePassword st = (false, { st with password :=
      { showError st.password "Password must be at least 6 characters" with groupError := true } }) := by
  simp_all [validatePassword]

lemma validatePassword_eq_valid (st : FormState) (v : String)
    (hv : st.password.value = v)
    (h1 : v ≠ "") (h2 : ¬v.length < 6) :
    validatePassword st = (true, { st with password :=
      { clearError st.password with groupError := false } }) := by
  simp_all [validatePassword]

lemma validatePhone_eq_required (st : FormState) (v : String)
    (hv : st.phone.value = v)
    (h : jsTrim v = "") :
    validatePhone st = (false, { st with phone :=
      { showError st.phone "Phone number is required" with groupError := true } }) := by
  simp_all [validatePhone]

lemma validatePhone_eq_nonDigit (st : FormState) (v : String)
    (hv : st.phone.value = v)
    (h1 : jsTrim v ≠ "")
    (h2 : digitsOnly (jsTrim v) = false) :
    validatePhone st = (false, { st with phone :=
      { showError st.phone "Phone number must contain only digits (0-9)" with groupError := true } }) := by
  simp_all [validatePhone]

lemma validatePhone_eq_tooShort (st : FormState) (v : String)
    (hv : st.phone.value = v)
    (h1 : jsTrim v ≠ "")
    (h2 : digitsOnly (jsTrim v) = true)
    (h3 : (jsTrim v).length < 10) :
    validatePhone st = (false, { st with phone :=
      { showError st.phone "Phone number must be at least 10 digits" with groupError := true } }) := by
  simp_all [validatePhone]

lemma validatePhone_eq_valid (st : FormState) (v : String)
    (hv : st.phone.value = v)
    (h1 : jsTrim v ≠ "")
    (h2 : digitsOnly (jsTrim v) = true)
    (h3 : ¬(jsTrim v).length < 10) :
    validatePhone st = (true, { st with phone :=
      { clearError st.phone with groupError := false } }) := by
  simp_all [validatePhone]

lemma validateConfirmPassword_eq_required (st : FormState) (c : String)
    (hc : st.confirmPassword.value = c)
    (h : c = "") :
    validateConfirmPassword st = (false, { st with confirmPassword :=
      { showError st.confirmPassword "Please confirm your password" with groupError := true } }) := by
  simp_all [validateConfirmPassword]

lemma validateConfirmPassword_eq_mismatch (st : FormState) (p c : String)
    (hp : st.password.value = p) (hc : st.confirmPassword.value = c)
    (h1 : c ≠ "") (h2 : p ≠ c) :
    validateConfirmPassword st = (false, { st with confirmPassword :=
      { showError st.confirmPassword "Passwords do not match" with groupError := true } }) := by
  simp_all [validateConfirmPassword]

lemma validateConfirmPassword_eq_match (st : FormState) (p c : String)
    (hp : st.password.value = p) (hc : st.confirmPassword.value = c)
    (h1 : c ≠ "") (h2 : p = c) :
    validateConfirmPassword st = (true, { st with confirmPassword :=
      { clearError st.confirmPassword with groupError := false } }) := by
  simp_all [validateConfirmPassword]

/-! Correctness of the determinised regex test: `emailRegexTest` agrees with
the direct reading of `/^[^\s@]+@[^\s@]+\.[^\s@]+$/` as an existential
decomposition of the character list. -/

lemma splitAtFirstAt_eq (cs : List Char) (a d : List Char)
    (h : splitAtFirstAt cs = some (a, d)) :
    cs = a ++ '@' :: d ∧ '@' ∉ a := by
  induction cs generalizing a with
  | nil => simp [splitAtFirstAt] at h
  | cons x xs ih =>
    simp only [splitAtFirstAt] at h
    by_cases hx : x = '@'
    · subst hx
      rw [if_pos rfl] at h
      simp only [Option.some.injEq, Prod.mk.injEq] at h
      obtain ⟨h1, h2⟩ := h
      subst h1; subst h2
      exact ⟨rfl, by simp⟩
    · rw [if_neg hx] at h
      split at h
      · next before after heq =>
        simp only [Option.some.injEq, Prod.mk.injEq] at h
        obtain ⟨h1, h2⟩ := h
        subst h1; subst h2
        obtain ⟨hcs, hnot⟩ := ih before heq
        refine ⟨by rw [hcs]; rfl, ?_⟩
        intro hm
        rcases List.mem_cons.mp hm with h | h
        · exact hx h.symm
        · exact hnot h
      · exact nomatch h

lemma dotBeforeLast_cons (x : Char) (l : List Char) (h : l ≠ []) :
    dotBeforeLast (x :: l) = (x == '.' || dotBeforeLast l) := by
  cases l with
  | nil => exact absurd rfl h
  | cons y ys => rfl

lemma dotBeforeLast_iff (l : List Char) :
    dotBeforeLast l = true ↔ ∃ b c : List Char, l = b ++ '.' :: c ∧ c ≠ [] := by
  constructor
  · intro h
    induction l with
    | nil => simp [dotBeforeLast] at h
    | cons x xs ih =>
      cases xs with
      | nil => simp [dotBeforeLast] at h
      | cons y ys =>
        rw [dotBeforeLast_cons x (y :: ys) (by simp)] at h
        simp only [Bool.or_eq_true, beq_iff_eq] at h
        rcases h with h | h
        · exact ⟨[], y :: ys, by rw [h]; rfl, by simp⟩
        · obtain ⟨b, c, hbc, hc⟩ := ih h
          exact ⟨x :: b, c, by rw [List.cons_append, ← hbc], hc⟩
  · rintro ⟨b, c, rfl, hc⟩
    induction b with
    | nil =>
      cases c with
      | nil => exact absurd rfl hc
      | cons c0 cs => rfl
    | cons x b ih =>
      rw [List.cons_append, dotBeforeLast_cons x _ (by simp), ih]
      simp

lemma splitAtFirstAt_append (a d : List Char) (h : '@' ∉ a) :
    splitAtFirstAt (a ++ '@' :: d) = some (a, d) := by
  induction a with
  | nil => simp [splitAtFirstAt]
  | cons x xs ih =>
    have hx : ¬(x = '@') := by intro he; exact h (by simp [he])
    rw [List.cons_append]
    simp only [splitAtFirstAt]
    rw [if_neg hx, ih (fun hm => h (List.mem_cons_of_mem _ hm))]

lemma emailRegexTest_iff (s : String) :
    emailRegexTest s = true ↔
      ∃ a b c : List Char, s.data = a ++ '@' :: (b ++ '.' :: c) ∧
        a ≠ [] ∧ b ≠ [] ∧ c ≠ [] ∧
        (∀ x ∈ a, emailChar x = true) ∧ (∀ x ∈ b, emailChar x = true) ∧
        (∀ x ∈ c, emailChar x = true) := by
  constructor
  · intro h
    unfold emailRegexTest at h
    split at h
    · exact nomatch h
    · next l d heq =>
      obtain ⟨hcs, hnot⟩ := splitAtFirstAt_eq s.data l d heq
      simp only [Bool.and_eq_true] at h
      obtain ⟨⟨⟨hne, hl⟩, hd⟩, hm⟩ := h
      split at hm
      · exact nomatch hm
      · next d0 rest =>
        obtain ⟨b, c, hbc, hc⟩ := (dotBeforeLast_iff rest).mp hm
        have hd' := List.all_eq_true.mp hd
        refine ⟨l, d0 :: b, c, ?_, ?_, by simp, hc, ?_, ?_, ?_⟩
        · rw [hcs, hbc]; simp
        · intro hl0; rw [hl0] at hne; exact nomatch hne
        · exact List.all_eq_true.mp hl
        · intro x hx
          apply hd'
          rcases List.mem_cons.mp hx with rfl | hxb
          · exact List.mem_cons_self _ _
          · exact List.mem_cons_of_mem _ (by rw [hbc]; exact List.mem_append_left _ hxb)
        · intro x hx
          apply hd'
          exact List.mem_cons_of_mem _
            (by rw [hbc]; exact List.mem_append_right _ (List.mem_cons_of_mem _ hx))
  · rintro ⟨a, b, c, hs, ha, hb, hc, hae, hbe, hce⟩
    have hnot : '@' ∉ a := by
      intro hm
      have := hae '@' hm
      exact absurd this (by decide)
    rcases b with _ | ⟨b0, b'⟩
    · exact absurd rfl hb
    · unfold emailRegexTest
      rw [hs, splitAtFirstAt_append a _ hnot]
      rw [List.cons_append]
      simp only [Bool.and_eq_true]
      refine ⟨⟨⟨?_, ?_⟩, ?_⟩, ?_⟩
      · rcases a with _ | ⟨a0, a'⟩
        · exact absurd rfl ha
        · rfl
      · exact List.all_eq_true.mpr hae
      · apply List.all_eq_true.mpr
        intro x hx
        rcases List.mem_cons.mp hx with rfl | hx
        · exact hbe _ (List.mem_cons_self _ _)
        · rcases List.mem_append.mp hx with hx | hx
          · exact hbe _ (List.mem_cons_of_mem _ hx)
          · rcases List.mem_cons.mp hx with rfl | hx
            · decide
            · exact hce _ hx
      · exact (dotBeforeLast_iff _).mpr ⟨b', c, rfl, hc⟩

/-! The claims. -/

/-- Claim C1: `validateForm` invokes each of the five field validators
unconditionally on every call, regardless of any individual verdict, and
returns true if and only if all five validators returned true; in
particular, when all five fields are empty it returns false and every one of
the five error slots is left populated with a non-empty message (here the
exact "required" messages). -/
theorem validateForm_spec (st : FormState) :
    ((validateForm st).1 = true ↔
      ((validateFullName st).1 = true ∧
        (validateEmail (validateFullName st).2).1 = true ∧
        (validatePassword (validateEmail (validateFullName st).2).2).1 = true ∧
        (validateConfirmPassword (validatePassword (validateEmail
          (validateFullName st).2).2).2).1 = true ∧
        (validatePhone (validateConfirmPassword (validatePassword (validateEmail
          (validateFullName st).2).2).2).2).1 = true)) ∧
    (validateForm st).2 =
      (validatePhone (validateConfirmPassword (validatePassword (validateEmail
        (validateFullName st).2).2).2).2).2 ∧
    (st.fullName.value = "" ∧ st.email.value = "" ∧ st.password.value = "" ∧
        st.confirmPassword.value = "" ∧ st.phone.value = "" →
      (validateForm st).1 = false ∧
      (validateForm st).2.fullName.errorText = "Full name is required" ∧
      (validateForm st).2.email.errorText = "Email is required" ∧
      (validateForm st).2.password.errorText = "Password is required" ∧
      (validateForm st).2.confirmPassword.errorText = "Please confirm your password" ∧
      (validateForm st).2.phone.errorText = "Phone number is required") := by
  refine ⟨?_, ?_, ?_⟩
  · rcases hv1 : validateFullName st with ⟨b1, s1⟩
    rcases hv2 : validateEmail s1 with ⟨b2, s2⟩
    rcases hv3 : validatePassword s2 with ⟨b3, s3⟩
    rcases hv4 : validateConfirmPassword s3 with ⟨b4, s4⟩
    rcases hv5 : validatePhone s4 with ⟨b5, s5⟩
    simp [validateForm, hv1, hv2, hv3, hv4, hv5, Bool.and_eq_true, and_assoc]
  · rcases hv1 : validateFullName st with ⟨b1, s1⟩
    rcases hv2 : validateEmail s1 with ⟨b2, s2⟩
    rcases hv3 : validatePassword s2 with ⟨b3, s3⟩
    rcases hv4 : validateConfirmPassword s3 with ⟨b4, s4⟩
    rcases hv5 : validatePhone s4 with ⟨b5, s5⟩
    simp [validateForm, hv1, hv2, hv3, hv4, hv5]
  · rintro ⟨e1, e2, e3, e4, e5⟩
    have q1 := validateFullName_eq_required st "" e1 rfl
    have e2x : (validateFullName st).2.email.value = "" := by rw [q1]; exact e2
    have q2 := validateEmail_eq_required (validateFullName st).2 "" e2x rfl
    have e3x : (validateEmail (validateFullName st).2).2.password.value = "" := by
      rw [q2, q1]; exact e3
    have q3 := validatePassword_eq_required
      (validateEmail (validateFullName st).2).2 "" e3x rfl
    have e4x : (validatePassword
        (validateEmail (validateFullName st).2).2).2.confirmPassword.value = "" := by
      rw [q3, q2, q1]; exact e4
    have q4 := validateConfirmPassword_eq_required (validatePassword
      (validateEmail (validateFullName st).2).2).2 "" e4x rfl
    have e5x : (validateConfirmPassword (validatePassword
        (validateEmail (validateFullName st).2).2).2).2.phone.value = "" := by
      rw [q4, q3, q2, q1]; exact e5
    have q5 := validatePhone_eq_required (validateConfirmPassword (validatePassword
      (validateEmail (validateFullName st).2).2).2).2 "" e5x rfl
    refine ⟨?_, ?_, ?_, ?_, ?_, ?_⟩ <;>
      simp only [validateForm] <;> rw [q5, q4, q3, q2, q1] <;> rfl

/-- Claim C2: `validateEmail` evaluates its rules in short-circuit order on
the trimmed value (empty, missing at sign, missing dot, full regex), so the
first failing rule determines the verdict and the message; on "a@b.c" it
returns true, on "ab.c" false with the at-sign message, on "a@bc" false with
the domain message, and on "a @b.c" false via the full-format regex. -/
theorem validateEmail_spec (st : FormState) :
    (jsTrim st.email.value = "" →
      (validateEmail st).1 = false ∧
      (validateEmail st).2.email.errorText = "Email is required") ∧
    (jsTrim st.email.value ≠ "" →
      (jsTrim st.email.value).data.contains '@' = false →
      (validateEmail st).1 = false ∧
      (validateEmail st).2.email.errorText = "Email must contain @ symbol") ∧
    (jsTrim st.email.value ≠ "" →
      (jsTrim st.email.value).data.contains '@' = true →
      (jsTrim st.email.value).data.contains '.' = false →
      (validateEmail st).1 = false ∧
      (validateEmail st).2.email.errorText = "Email must contain a domain (.)") ∧
    (jsTrim st.email.value ≠ "" →
      (jsTrim st.email.value).data.contains '@' = true →
      (jsTrim st.email.value).data.contains '.' = true →
      emailRegexTest (jsTrim st.email.value) = false →
      (validateEmail st).1 = false ∧
      (validateEmail st).2.email.errorText = "Please enter a valid email format") ∧
    (jsTrim st.email.value ≠ "" →
      (jsTrim st.email.value).data.contains '@' = true →
      (jsTrim st.email.value).data.contains '.' = true →
      emailRegexTest (jsTrim st.email.value) = true →
      (validateEmail st).1 = true ∧
      (validateEmail st).2.email.errorText = "") ∧
    (validateEmail (setValue st FieldId.email "a@b.c")).1 = true ∧
    ((validateEmail (setValue st FieldId.email "ab.c")).1 = false ∧
      (validateEmail (setValue st FieldId.email "ab.c")).2.email.errorText =
        "Email must contain @ symbol") ∧
    ((validateEmail (setValue st FieldId.email "a@bc")).1 = false ∧
      (validateEmail (setValue st FieldId.email "a@bc")).2.email.errorText =
        "Email must contain a domain (.)") ∧
    ((validateEmail (setValue st FieldId.email "a @b.c")).1 = false ∧
      (validateEmail (setValue st FieldId.email "a @b.c")).2.email.errorText =
        "Please enter a valid email format") := by
  refine ⟨?_, ?_, ?_, ?_, ?_, ?_, ?_, ?_, ?_⟩
  · intro h; rw [validateEmail_eq_required st _ rfl h]; exact ⟨rfl, rfl⟩
  · intro h1 h2; rw [validateEmail_eq_noAt st _ rfl h1 h2]; exact ⟨rfl, rfl⟩
  · intro h1 h2 h3; rw [validateEmail_eq_noDot st _ rfl h1 h2 h3]; exact ⟨rfl, rfl⟩
  · intro h1 h2 h3 h4
    rw [validateEmail_eq_badFormat st _ rfl h1 h2 h3 h4]; exact ⟨rfl, rfl⟩
  · intro h1 h2 h3 h4
    rw [validateEmail_eq_valid st _ rfl h1 h2 h3 h4]; exact ⟨rfl, rfl⟩
  · rw [validateEmail_eq_valid (setValue st FieldId.email "a@b.c") "a@b.c" rfl
      (by decide) (by decide) (by decide) (by decide)]
  · have E := validateEmail_eq_noAt (setValue st FieldId.email "ab.c") "ab.c" rfl
      (by decide) (by decide)
    exact ⟨by rw [E], by rw [E]; rfl⟩
  · have E := validateEmail_eq_noDot (setValue st FieldId.email "a@bc") "a@bc" rfl
      (by decide) (by decide) (by decide)
    exact ⟨by rw [E], by rw [E]; rfl⟩
  · have E := validateEmail_eq_badFormat (setValue st FieldId.email "a @b.c")
      "a @b.c" rfl (by decide) (by decide) (by decide) (by decide)
    exact ⟨by rw [E], by rw [E]; rfl⟩

/-- Claim C4: `validateConfirmPassword` returns true if and only if the
confirm-password value is non-empty and strictly equal to the current value
of the password field; consequently, from any state in which the two values
match, changing the password value to any different string makes the next
evaluation of `validateConfirmPassword` return false. -/
theorem validateConfirmPassword_spec (st : FormState) :
    ((validateConfirmPassword st).1 = true ↔
      st.confirmPassword.value ≠ "" ∧
        st.confirmPassword.value = st.password.value) ∧
    (∀ p : String, st.confirmPassword.value = st.password.value →
      p ≠ st.password.value →
      (validateConfirmPassword (setValue st FieldId.password p)).1 = false) := by
  constructor
  · by_cases hc : st.confirmPassword.value = ""
    · rw [validateConfirmPassword_eq_required st _ rfl hc]
      simp [hc]
    · by_cases hp : st.password.value = st.confirmPassword.value
      · rw [validateConfirmPassword_eq_match st _ _ rfl rfl hc hp]
        exact iff_of_true rfl ⟨hc, hp.symm⟩
      · rw [validateConfirmPassword_eq_mismatch st _ _ rfl rfl hc hp]
        exact iff_of_false (by simp) (fun hh => hp hh.2.symm)
  · intro p hm hne
    by_cases hc : st.confirmPassword.value = ""
    · rw [validateConfirmPassword_eq_required (setValue st FieldId.password p)
        st.confirmPassword.value rfl hc]
    · rw [validateConfirmPassword_eq_mismatch (setValue st FieldId.password p)
        p st.confirmPassword.value rfl rfl hc (fun h => hne (h.trans hm))]

/-- Claim C5: `validatePhone`, on the trimmed value, checks non-emptiness,
then the digits-only regex, then minimum length 10, in that order, with the
first failing rule determining the message: "12345" is too short,
"12345abcde" fails the digits check (which precedes the length check), and
"1234567890" passes. -/
theorem validatePhone_spec (st : FormState) :
    (jsTrim st.phone.value = "" →
      (validatePhone st).1 = false ∧
      (validatePhone st).2.phone.errorText = "Phone number is required") ∧
    (jsTrim st.phone.value ≠ "" →
      digitsOnly (jsTrim st.phone.value) = false →
      (validatePhone st).1 = false ∧
      (validatePhone st).2.phone.errorText =
        "Phone number must contain only digits (0-9)") ∧
    (jsTrim st.phone.value ≠ "" →
      digitsOnly (jsTrim st.phone.value) = true →
      (jsTrim st.phone.value).length < 10 →
      (validatePhone st).1 = false ∧
      (validatePhone st).2.phone.errorText =
        "Phone number must be at least 10 digits") ∧
    (jsTrim st.phone.value ≠ "" →
      digitsOnly (jsTrim st.phone.value) = true →
      ¬(jsTrim st.phone.value).length < 10 →
      (validatePhone st).1 = true ∧
      (validatePhone st).2.phone.errorText = "") ∧
    ((validatePhone (setValue st FieldId.phone "12345")).1 = false ∧
      (validatePhone (setValue st FieldId.phone "12345")).2.phone.errorText =
        "Phone number must be at least 10 digits") ∧
    ((validatePhone (setValue st FieldId.phone "12345abcde")).1 = false ∧
      (validatePhone (setValue st FieldId.phone "12345abcde")).2.phone.errorText =
        "Phone number must contain only digits (0-9)") ∧
    (validatePhone (setValue st FieldId.phone "1234567890")).1 = true := by
  refine ⟨?_, ?_, ?_, ?_, ?_, ?_, ?_⟩
  · intro h; rw [validatePhone_eq_required st _ rfl h]; exact ⟨rfl, rfl⟩
  · intro h1 h2; rw [validatePhone_eq_nonDigit st _ rfl h1 h2]; exact ⟨rfl, rfl⟩
  · intro h1 h2 h3; rw [validatePhone_eq_tooShort st _ rfl h1 h2 h3]; exact ⟨rfl, rfl⟩
  · intro h1 h2 h3; rw [validatePhone_eq_valid st _ rfl h1 h2 h3]; exact ⟨rfl, rfl⟩
  · have E := validatePhone_eq_tooShort (setValue st FieldId.phone "12345")
      "12345" rfl (by decide) (by decide) (by decide)
    exact ⟨by rw [E], by rw [E]; rfl⟩
  · have E := validatePhone_eq_nonDigit (setValue st FieldId.phone "12345abcde")
      "12345abcde" rfl (by decide) (by decide)
    exact ⟨by rw [E], by rw [E]; rfl⟩
  · rw [validatePhone_eq_valid (setValue st FieldId.phone "1234567890")
      "1234567890" rfl (by decide) (by decide) (by decide)]

/-- Claim C6: `resetForm` is idempotent and state-independent: from any
state it produces the page-load state (every input value cleared, both input
classes and the container error flag removed on all five fields, all five
error slots empty and hidden, the success banner hidden, every verdict
unset), so applying it twice yields the same state as applying it once. -/
theorem resetForm_spec (st : FormState) :
    resetForm st = initState ∧ resetForm (resetForm st) = resetForm st :=
  ⟨rfl, rfl⟩

/-- Claim C3 (amended): after every operation of the system, each field's
error-message slot is non-empty if and only if its error-styling class
"error-input" is present; the further equivalence with "the last validation
verdict was fail" holds immediately after every validator run on the field
(blur, qualifying confirm-password input, submit), but it does not survive
every operation: the password input shortcut empties the slot without
recording a verdict (see the counterexample). -/
theorem errorSlot_styling_verdict (st : FormState) (h : Reachable st) (f : FieldId) :
    ((getField st f).errorText ≠ "" ↔ (getField st f).errorInput = true) ∧
    (∀ (st0 : FormState) (g : FieldId),
      ((getField (validateStep st0 g) g).errorText ≠ "" ↔
        (getField (validateStep st0 g) g).errorInput = true) ∧
      ((getField (validateStep st0 g) g).errorText ≠ "" ↔
        (getField (validateStep st0 g) g).verdict = some false)) := by
  refine ⟨(stateInv_reachable st h f).1, ?_⟩
  intro st0 g
  obtain ⟨hEI, hSI, hGE, hES, hET, hV, hVd⟩ := runValidator_post g st0
  rw [validateStep_self]
  dsimp only
  rw [hET, hEI]
  cases (runValidator g st0).1 <;> simp

/-- Witness for claim C3 at the page-load state and the password field. -/
theorem errorSlot_styling_verdict_witness :
    ((getField initState FieldId.password).errorText ≠ "" ↔
      (getField initState FieldId.password).errorInput = true) ∧
    (∀ (st0 : FormState) (g : FieldId),
      ((getField (validateStep st0 g) g).errorText ≠ "" ↔
        (getField (validateStep st0 g) g).errorInput = true) ∧
      ((getField (validateStep st0 g) g).errorText ≠ "" ↔
        (getField (validateStep st0 g) g).verdict = some false)) :=
  errorSlot_styling_verdict initState Reachable.init FieldId.password

/-- Counterexample to claim C3 as stated: the trace is reachable, and at its
end the password error slot is empty while the last recorded verdict is
still fail, so the three-way equivalence fails. -/
theorem errorSlot_styling_verdict_counterexample :
    Reachable passwordShortcutTrace ∧
    (getField passwordShortcutTrace FieldId.password).errorText = "" ∧
    (getField passwordShortcutTrace FieldId.password).verdict = some false ∧
    ¬(((getField passwordShortcutTrace FieldId.password).errorText ≠ "" ↔
        (getField passwordShortcutTrace FieldId.password).errorInput = true) ∧
      ((getField passwordShortcutTrace FieldId.password).errorText ≠ "" ↔
        (getField passwordShortcutTrace FieldId.password).verdict = some false)) := by
  refine ⟨?_, by decide, by decide, by decide⟩
  exact Reachable.next (Reachable.next (Reachable.next Reachable.init _) _) _

/-- Claim C7: after every operation of the system, at most one of the two
input styling classes "error-input" and "success-input" is present on any
field. -/
theorem stylingClasses_exclusive (st : FormState) (h : Reachable st) (f : FieldId) :
    ¬((getField st f).errorInput = true ∧ (getField st f).successInput = true) :=
  (stateInv_reachable st h f).2

/-- Witness for claim C7 at the page-load state and the email field. -/
theorem stylingClasses_exclusive_witness :
    ¬((getField initState FieldId.email).errorInput = true ∧
      (getField initState FieldId.email).successInput = true) :=
  stylingClasses_exclusive initState Reachable.init FieldId.email

/-- Claim C8: each field validator mutates only its own field: for every
starting state, running the validator of field `f` leaves the whole state of
every other field (value, classes, group flag, error slot, verdict) and the
success banner unchanged. -/
theorem validator_frame_spec (f g : FieldId) (st : FormState) (h : g ≠ f) :
    getField (runValidator f st).2 g = getField st g ∧
    (runValidator f st).2.successShow = st.successShow :=
  ⟨runValidator_frame f g st h, runValidator_successShow f st⟩

/-- Witness for claim C8: `validateConfirmPassword` reads but does not write
the password field. -/
theorem validator_frame_witness :
    getField (runValidator FieldId.confirmPassword initState).2 FieldId.password =
      getField initState FieldId.password ∧
    (runValidator FieldId.confirmPassword initState).2.successShow =
      initState.successShow :=
  validator_frame_spec FieldId.confirmPassword FieldId.password initState (by decide)

/-- Claim C9 (amended): `validateConfirmPassword` compares the raw,
untrimmed values: whenever the two values agree after trimming but differ as
raw strings and the confirm value is non-empty, it returns false with the
mismatch message (when the confirm value is empty the first rule fires
instead, with the "Please confirm your password" message); the name, email
and phone validators, by contrast, trim their values before checking, so
whitespace-padded inputs can still pass them. -/
theorem confirmPassword_raw_comparison (st : FormState)
    (ht : jsTrim st.password.value = jsTrim st.confirmPassword.value)
    (hne : st.password.value ≠ st.confirmPassword.value)
    (hc : st.confirmPassword.value ≠ "") :
    (validateConfirmPassword st).1 = false ∧
    (validateConfirmPassword st).2.confirmPassword.errorText =
      "Passwords do not match" ∧
    (validateFullName (setValue st FieldId.fullName " Ann ")).1 = true ∧
    (validateEmail (setValue st FieldId.email " a@b.c ")).1 = true ∧
    (validatePhone (setValue st FieldId.phone " 1234567890 ")).1 = true := by
  have E := validateConfirmPassword_eq_mismatch st st.password.value
    st.confirmPassword.value rfl rfl hc hne
  refine ⟨by rw [E], by rw [E]; rfl, ?_, ?_, ?_⟩
  · rw [validateFullName_eq_valid (setValue st FieldId.fullName " Ann ") " Ann "
      rfl (by decide) (by decide)]
  · rw [validateEmail_eq_valid (setValue st FieldId.email " a@b.c ") " a@b.c "
      rfl (by decide) (by decide) (by decide) (by decide)]
  · rw [validatePhone_eq_valid (setValue st FieldId.phone " 1234567890 ")
      " 1234567890 " rfl (by decide) (by decide) (by decide)]

/-- Counterexample to claim C9 as stated: a pair of values that differ only
in trailing whitespace for which `validateConfirmPassword` shows the
"Please confirm your password" message rather than "Passwords do not
match". -/
theorem confirmPassword_raw_comparison_counterexample :
    jsTrim whitespaceMismatchState.password.value =
      jsTrim whitespaceMismatchState.confirmPassword.value ∧
    whitespaceMismatchState.password.value ≠
      whitespaceMismatchState.confirmPassword.value ∧
    (validateConfirmPassword whitespaceMismatchState).1 = false ∧
    (validateConfirmPassword whitespaceMismatchState).2.confirmPassword.errorText ≠
      "Passwords do not match" ∧
    (validateConfirmPassword whitespaceMismatchState).2.confirmPassword.errorText =
      "Please confirm your password" := by
  decide

/-- Witness for claim C9 at the pair from the claim: password "abc123",
confirm password "abc123 ". -/
theorem confirmPassword_raw_comparison_witness :
    (validateConfirmPassword (setValue (setValue initState FieldId.password
      "abc123") FieldId.confirmPassword "abc123 ")).1 = false ∧
    (validateConfirmPassword (setValue (setValue initState FieldId.password
      "abc123") FieldId.confirmPassword "abc123 ")).2.confirmPassword.errorText =
      "Passwords do not match" ∧
    (validateFullName (setValue (setValue (setValue initState FieldId.password
      "abc123") FieldId.confirmPassword "abc123 ") FieldId.fullName " Ann ")).1 = true ∧
    (validateEmail (setValue (setValue (setValue initState FieldId.password
      "abc123") FieldId.confirmPassword "abc123 ") FieldId.email " a@b.c ")).1 = true ∧
    (validatePhone (setValue (setValue (setValue initState FieldId.password
      "abc123") FieldId.confirmPassword "abc123 ") FieldId.phone " 1234567890 ")).1 = true :=
  confirmPassword_raw_comparison
    (setValue (setValue initState FieldId.password "abc123")
      FieldId.confirmPassword "abc123 ")
    (by decide) (by decide) (by decide)

/-- Claim C10: the password input handler, once the value reaches length 6,
calls only `clearError`: it empties and hides the password error slot and
swaps "error-input" for "success-input", but it neither touches the
container "error" flag (so a flag set by a prior failing `validatePassword`
run remains set) nor records a verdict, and it leaves every other field and
the success banner unchanged. -/
theorem passwordInput_shortcut (st : FormState) (v : String) (h : 6 ≤ v.length) :
    (step st (Op.inputPassword v)).password.value = v ∧
    (step st (Op.inputPassword v)).password.errorText = "" ∧
    (step st (Op.inputPassword v)).password.errorShow = false ∧
    (step st (Op.inputPassword v)).password.errorInput = false ∧
    (step st (Op.inputPassword v)).password.successInput = true ∧
    (step st (Op.inputPassword v)).password.groupError = st.password.groupError ∧
    (step st (Op.inputPassword v)).password.verdict = st.password.verdict ∧
    (∀ g : FieldId, g ≠ FieldId.password →
      getField (step st (Op.inputPassword v)) g = getField st g) ∧
    (step st (Op.inputPassword v)).successShow = st.successShow := by
  have hs : step st (Op.inputPassword v) =
      setField (setValue st FieldId.password v) FieldId.password
        (clearError (getField (setValue st FieldId.password v) FieldId.password)) := by
    simp only [step]
    rw [if_pos h]
  rw [hs]
  refine ⟨rfl, rfl, rfl, rfl, rfl, rfl, rfl, ?_, rfl⟩
  intro g hg
  rw [getField_setField_of_ne _ _ _ _ hg]
  exact getField_setField_of_ne _ _ _ _ hg

/-- Witness for claim C10 on a reachable trace where a failing blur left the
container "error" flag set: the shortcut clears the slot but the flag stays
set. -/
theorem passwordInput_shortcut_witness :
    (getField (step (step initState (Op.inputPassword "abc"))
      (Op.blur FieldId.password)) FieldId.password).groupError = true ∧
    (step (step (step initState (Op.inputPassword "abc"))
      (Op.blur FieldId.password)) (Op.inputPassword "abcdef")).password.errorText = "" ∧
    (step (step (step initState (Op.inputPassword "abc"))
      (Op.blur FieldId.password)) (Op.inputPassword "abcdef")).password.groupError =
      (step (step initState (Op.inputPassword "abc"))
        (Op.blur FieldId.password)).password.groupError :=
  ⟨by decide,
    (passwordInput_shortcut (step (step initState (Op.inputPassword "abc"))
      (Op.blur FieldId.password)) "abcdef" (by decide)).2.1,
    (passwordInput_shortcut (step (step initState (Op.inputPassword "abc"))
      (Op.blur FieldId.password)) "abcdef" (by decide)).2.2.2.2.2.1⟩

end SignupValidation

